import Mathlib

/-!
Verification of the practice-session engine of the coworker-flashcards
repository: guess classification, session statistics, the correction gate,
the Fisher-Yates shuffle, and the rocket-game physics tick.

JavaScript string primitives are modelled over the character list of a
string: toLowerCase maps Char.toLower over the characters, trim removes
whitespace from both ends, and split(' ')[0] is the longest prefix free of
spaces.
-/

namespace FaceCards

/-- Model of JavaScript String.prototype.toLowerCase (ASCII case folding). -/
def jsLower (s : String) : String := ⟨s.data.map Char.toLower⟩

/-- Model of JavaScript String.prototype.trim: drop whitespace at both ends. -/
def jsTrim (s : String) : String :=
  ⟨((s.data.dropWhile Char.isWhitespace).reverse.dropWhile Char.isWhitespace).reverse⟩

/-- Model of s.split(' ')[0]: the prefix of s up to the first space. -/
def jsFirstWord (s : String) : String := ⟨s.data.takeWhile (fun c => c ≠ ' ')⟩

/-- Difficulty selector: first (match the first name) or full (match the full name). -/
inductive Difficulty where
  | first
  | full
deriving DecidableEq, Repr

/-- The three game modes of the practice view. -/
inductive Mode where
  | classic
  | timed
  | rocket
deriving DecidableEq, Repr

/-- Feedback classification of a submitted guess. -/
inductive Feedback where
  | correct
  | nickname
  | incorrect
deriving DecidableEq, Repr

/-- A practice card: the coworker name plus the nickname list. -/
structure Card where
  name : String
  nicknames : List String
deriving DecidableEq, Repr

/-- Input to checkGuess: the pieces of component state the function reads. -/
structure GuessInput where
  difficulty : Difficulty
  gameMode : Mode
  name : String
  nicknames : List String
  guess : String
  correct : Nat
  total : Nat
  rocketHeight : ℚ
  rocketCrashed : Bool
  rocketBoosting : Bool
deriving DecidableEq

/-- Output of checkGuess: the pieces of component state the function writes. -/
structure GuessResult where
  feedback : Feedback
  correct : Nat
  total : Nat
  rocketHeight : ℚ
  rocketCrashed : Bool
  rocketBoosting : Bool
  autoAdvance : Bool
  showAnswer : Bool
deriving DecidableEq

/-- Translation of checkGuess from the owner practice view
(src/unnamed/part_004, lines 435-484).  The two setTimeout calls of the
rocket-correct branch are modelled by the rocketBoosting and autoAdvance
flags of the result. -/
def practiceCheckGuess (i : GuessInput) : GuessResult :=
  let guessLower := jsTrim (jsLower i.guess)
  let fullName := jsTrim (jsLower i.name)
  let firstName := jsFirstWord fullName
  let nicknames := i.nicknames.map jsLower
  let target := if i.difficulty = Difficulty.first then firstName else fullName
  let isCorrect := guessLower = target
  let isNicknameMatch := ¬isCorrect ∧ i.difficulty = Difficulty.first ∧ guessLower ∈ nicknames
  if isCorrect ∨ isNicknameMatch then
    let base : GuessResult :=
      { feedback := if isNicknameMatch then Feedback.nickname else Feedback.correct
        correct := i.correct + 1
        total := i.total + 1
        rocketHeight := i.rocketHeight
        rocketCrashed := i.rocketCrashed
        rocketBoosting := i.rocketBoosting
        autoAdvance := false
        showAnswer := true }
    if i.gameMode = Mode.rocket then
      { base with
          rocketHeight := min 100 (i.rocketHeight + 20)
          rocketBoosting := true
          autoAdvance := true }
    else base
  else
    let base : GuessResult :=
      { feedback := Feedback.incorrect
        correct := i.correct
        total := i.total + 1
        rocketHeight := i.rocketHeight
        rocketCrashed := i.rocketCrashed
        rocketBoosting := i.rocketBoosting
        autoAdvance := false
        showAnswer := true }
    if i.gameMode = Mode.rocket then
      let newHeight := max 0 (i.rocketHeight - 15)
      { base with
          rocketHeight := newHeight
          rocketCrashed := if newHeight ≤ 0 then true else i.rocketCrashed }
    else base

/-- Translation of checkGuess from the shared-deck guest view
(src/src/pages/SharedDeckPage.jsx, lines 254-301), restricted to the same
state components. -/
def sharedCheckGuess (i : GuessInput) : GuessResult :=
  let guessLower := jsTrim (jsLower i.guess)
  let fullName := jsTrim (jsLower i.name)
  let firstName := jsFirstWord fullName
  let nicknames := i.nicknames.map jsLower
  let target := if i.difficulty = Difficulty.first then firstName else fullName
  let isCorrect := guessLower = target
  let isNicknameMatch := ¬isCorrect ∧ i.difficulty = Difficulty.first ∧ guessLower ∈ nicknames
  if isCorrect ∨ isNicknameMatch then
    let base : GuessResult :=
      { feedback := if isNicknameMatch then Feedback.nickname else Feedback.correct
        correct := i.correct + 1
        total := i.total + 1
        rocketHeight := i.rocketHeight
        rocketCrashed := i.rocketCrashed
        rocketBoosting := i.rocketBoosting
        autoAdvance := false
        showAnswer := true }
    if i.gameMode = Mode.rocket then
      { base with
          rocketHeight := min 100 (i.rocketHeight + 20)
          rocketBoosting := true
          autoAdvance := true }
    else base
  else
    let base : GuessResult :=
      { feedback := Feedback.incorrect
        correct := i.correct
        total := i.total + 1
        rocketHeight := i.rocketHeight
        rocketCrashed := i.rocketCrashed
        rocketBoosting := i.rocketBoosting
        autoAdvance := false
        showAnswer := true }
    if i.gameMode = Mode.rocket then
      let newHeight := max 0 (i.rocketHeight - 15)
      { base with
          rocketHeight := newHeight
          rocketCrashed := if newHeight ≤ 0 then true else i.rocketCrashed }
    else base

/-- Guess classification as the specification words it: normalize the input,
compare against the target (first name before the first space for FIRST_NAME
difficulty, the trimmed lowercased full name otherwise), then try the
nicknames case-insensitively, but only at FIRST_NAME difficulty. -/
def specClassify (d : Difficulty) (fullName : String) (nicknames : List String)
    (raw : String) : Feedback :=
  let input := jsTrim (jsLower raw)
  let base := jsTrim (jsLower fullName)
  let target := if d = Difficulty.first then jsFirstWord base else base
  if input = target then Feedback.correct
  else if d = Difficulty.first ∧ input ∈ nicknames.map jsLower then Feedback.nickname
  else Feedback.incorrect

/-! ## Rocket game physics (src/src/components/RocketGame.jsx)

The render callback is modelled as a pure tick over the refs it mutates
(currentHeightRef, visualHeightRef, lastBoostingRef) together with the
rocketCrashed flag of the parent, which the onCrash callback sets and which
flows back into the component as the crashed prop.  Altitudes are exact
rationals.  Canvas drawing is presentation only and is not modelled. -/

/-- Game balance constants of RocketGame.jsx (the GAME object). -/
def GRAVITY_RATE : ℚ := 8

/-- Base boost amount at low altitude. -/
def BASE_BOOST : ℚ := 20

/-- Boost multiplier at 0 percent altitude. -/
def BOOST_MULTIPLIER_MAX : ℚ := 5 / 2

/-- Boost multiplier at 100 percent altitude. -/
def BOOST_MULTIPLIER_MIN : ℚ := 1

/-- Speed constant used for the upward branch of visual smoothing. -/
def LERP_SPEED_UP : ℚ := 8

/-- Speed constant used for the downward branch of visual smoothing. -/
def LERP_SPEED_DOWN : ℚ := 12

/-- State carried across render ticks of RocketGame. -/
structure RGState where
  actual : ℚ
  visual : ℚ
  lastBoosting : Bool
  crashed : Bool
deriving DecidableEq

/-- Events emitted by one render tick: whether onCrash was invoked and
whether a boost impulse was applied. -/
structure RGEvents where
  crashFired : Bool
  boostFired : Bool
deriving DecidableEq

/-- Delta-time clamp at the top of the render callback: a gap above 0.1
seconds is replaced by one 60fps frame time, 0.016 seconds. -/
def clampDt (dtRaw : ℚ) : ℚ := if dtRaw > 1 / 10 then 2 / 125 else dtRaw

/-- The altitude-scaled boost multiplier (RocketGame.jsx line 169). -/
def boostMultiplier (a : ℚ) : ℚ :=
  BOOST_MULTIPLIER_MAX - a / 100 * (BOOST_MULTIPLIER_MAX - BOOST_MULTIPLIER_MIN)

/-- The boost amount added to the actual altitude on a rising edge. -/
def boostAmount (a : ℚ) : ℚ := BASE_BOOST * boostMultiplier a

/-- The altitude after the gravity stage of a tick
(RocketGame.jsx lines 148-159), before crash clamping. -/
def gravityRawAlt (gravityActive : Bool) (dt : ℚ) (s : RGState) : ℚ :=
  if gravityActive = true ∧ s.crashed = false then s.actual - GRAVITY_RATE * dt else s.actual

/-- One render tick of RocketGame (lines 126-188 of the render callback):
gravity decay with crash detection, boost rising-edge detection, and visual
smoothing.  The onCrash callback runs handleRocketCrash in the parent, so a
fired crash sets the crashed flag for the following ticks. -/
def tick (boosting gravityActive : Bool) (dtRaw : ℚ) (s : RGState) : RGState × RGEvents :=
  let dt := clampDt dtRaw
  let a1 := gravityRawAlt gravityActive dt s
  let crashNow := gravityActive = true ∧ s.crashed = false ∧ a1 ≤ 0
  let a2 := if crashNow then 0 else a1
  let crashed2 := if crashNow then true else s.crashed
  let boostNow := boosting = true ∧ s.lastBoosting = false
  let a3 := if boostNow then min 100 (a2 + boostAmount a2) else a2
  let diff := a3 - s.visual
  let visual2 :=
    if |diff| > 1 / 10 then
      s.visual + diff * (if diff > 0 then LERP_SPEED_UP else LERP_SPEED_DOWN) * dt
    else a3
  ({ actual := a3, visual := visual2, lastBoosting := boosting, crashed := crashed2 },
   { crashFired := decide crashNow, boostFired := decide boostNow })

/-- The altitude after the gravity stage of a tick including the crash
clamp at 0, in terms of the already clamped dt. -/
def postGravityAlt (gravityActive : Bool) (dt : ℚ) (s : RGState) : ℚ :=
  let a1 := gravityRawAlt gravityActive dt s
  if gravityActive = true ∧ s.crashed = false ∧ a1 ≤ 0 then 0 else a1

/-! ## Fisher-Yates shuffle (src/unnamed/part_004 lines 377-386) -/

/-- One swap of the in-place Fisher-Yates loop: the two reads happen before
the two writes, as in the JavaScript destructuring assignment. -/
def swapAt (l : List Nat) (i j : Nat) : List Nat :=
  (l.set i (l.getD j 0)).set j (l.getD i 0)

/-- The shuffle loop, counting i down from indices.length - 1 and stopping
before i = 0; rand i names the index drawn uniformly from [0, i]. -/
def fyLoop (rand : Nat → Nat) : Nat → List Nat → List Nat
  | 0, l => l
  | i + 1, l => fyLoop rand i (swapAt l (i + 1) (rand (i + 1)))

/-- The order produced by shuffleCards for n eligible cards. -/
def shuffleOrder (n : Nat) (rand : Nat → Nat) : List Nat :=
  fyLoop rand (n - 1) (List.range n)

/-! ## Session state machine (src/unnamed/part_004, PracticeView) -/

/-- The PracticeView component state that the practice session reads and
writes.  The cards field is the filtered practiceCards list, fixed for the
session.  The mnemonic-editing fields are presentation only and are left
out. -/
structure Session where
  cards : List Card
  currentIndex : Nat
  guess : String
  feedback : Option Feedback
  showAnswer : Bool
  correct : Nat
  total : Nat
  shuffledIndices : List Nat
  difficulty : Difficulty
  gameMode : Mode
  startTimeSet : Bool
  rocketHeight : ℚ
  rocketCrashed : Bool
  rocketBoosting : Bool
  lastGuess : String
  correctionInput : String
  correctionComplete : Bool

/-- The number of eligible cards, practiceCards.length. -/
def Session.numCards (s : Session) : Nat := s.cards.length

/-- Line 349: isSessionComplete, derived and not stored. -/
def isSessionComplete (s : Session) : Prop :=
  (0 < s.total ∧ s.numCards ≤ s.total) ∨ s.rocketCrashed = true

instance (s : Session) : Decidable (isSessionComplete s) := by
  unfold isSessionComplete; infer_instance

/-- Lines 352-355: the current coworker through the shuffle order. -/
def currentCoworker (s : Session) : Card :=
  let actualIndex :=
    if 0 < s.shuffledIndices.length then s.shuffledIndices.getD s.currentIndex 0
    else s.currentIndex
  s.cards.getD actualIndex ⟨"", []⟩

/-- Lines 358-367: resetCardState (the modelled fields). -/
def resetCardState (s : Session) : Session :=
  { s with
      guess := ""
      feedback := none
      showAnswer := false
      lastGuess := ""
      correctionInput := ""
      correctionComplete := false }

/-- Lines 369-372: nextCard, advancing the cursor modulo the card count. -/
def nextCardS (s : Session) : Session :=
  { resetCardState s with currentIndex := (s.currentIndex + 1) % s.numCards }

/-- Lines 377-386: shuffleCards, with rand the sequence of random draws. -/
def shuffleCardsS (rand : Nat → Nat) (s : Session) : Session :=
  { resetCardState s with
      shuffledIndices := shuffleOrder s.numCards rand
      currentIndex := 0 }

/-- Lines 550-555: getTargetName, the displayed target of the correction
gate (trimmed but not lowercased). -/
def getTargetName (d : Difficulty) (c : Card) : String :=
  let fullName := jsTrim c.name
  let firstName := jsFirstWord fullName
  if d = Difficulty.first then firstName else fullName

/-- Lines 572-575: checkCorrection, the correction-typing gate. -/
def checkCorrection (d : Difficulty) (c : Card) (input : String) : Bool :=
  jsTrim (jsLower input) == jsLower (getTargetName d c)

/-- Lines 577-580: handleCorrectionChange, run on every keystroke of the
correction field. -/
def handleCorrectionChangeS (v : String) (s : Session) : Session :=
  { s with
      correctionInput := v
      correctionComplete := checkCorrection s.difficulty (currentCoworker s) v }

/-- Line 1072: the disabled condition of the Next Card button. -/
def nextDisabled (s : Session) : Prop :=
  s.feedback = some Feedback.incorrect ∧ s.correctionComplete = false ∧
    s.gameMode = Mode.classic

instance (s : Session) : Decidable (nextDisabled s) := by
  unfold nextDisabled; infer_instance

/-- Lines 435-484: checkGuess acting on the session state, submitting the
current content of the guess field.  The scheduled auto-advance of the
rocket-correct branch is a separate transition. -/
def submitGuessS (s : Session) : Session :=
  let card := currentCoworker s
  let r := practiceCheckGuess
    { difficulty := s.difficulty
      gameMode := s.gameMode
      name := card.name
      nicknames := card.nicknames
      guess := s.guess
      correct := s.correct
      total := s.total
      rocketHeight := s.rocketHeight
      rocketCrashed := s.rocketCrashed
      rocketBoosting := s.rocketBoosting }
  { s with
      feedback := some r.feedback
      correct := r.correct
      total := r.total
      rocketHeight := r.rocketHeight
      rocketCrashed := r.rocketCrashed
      rocketBoosting := r.rocketBoosting
      showAnswer := true
      lastGuess := jsTrim s.guess
      correctionInput := ""
      correctionComplete := false
      startTimeSet := s.startTimeSet || (s.gameMode == Mode.timed) }

/-- Lines 924-932: the Reveal button click handler. -/
def revealButtonStep (s : Session) : Session :=
  { s with
      showAnswer := true
      feedback := some Feedback.incorrect
      lastGuess := ""
      correctionInput := ""
      correctionComplete := false
      total := s.total + 1 }

/-- Lines 403-411: the r keyboard shortcut handler. -/
def revealKeyStep (s : Session) : Session :=
  { s with
      showAnswer := true
      feedback := some Feedback.incorrect
      lastGuess := ""
      correctionInput := ""
      correctionComplete := false
      total := s.total + 1 }

/-- Lines 428-431: handleRocketCrash, the onCrash callback of RocketGame. -/
def handleRocketCrashS (s : Session) : Session :=
  { s with rocketCrashed := true, rocketHeight := 0 }

/-- Lines 486-497: restartPractice. -/
def restartPracticeS (rand : Nat → Nat) (s : Session) : Session :=
  shuffleCardsS rand
    { s with
        correct := 0
        total := 0
        startTimeSet := false
        rocketHeight := 50
        rocketCrashed := false
        rocketBoosting := false }

/-- Lines 565-570: handleGameModeChange, a full restart on a real change. -/
def handleGameModeChangeS (m : Mode) (rand : Nat → Nat) (s : Session) : Session :=
  if m ≠ s.gameMode then restartPracticeS rand { s with gameMode := m } else s

/-- Lines 907-923: the guess input boundary.  The Check button is disabled
exactly when the guess field is empty. -/
def checkDisabled (s : Session) : Bool := s.guess == ""

/-- Line 911: the Enter key submits only when the guess field is nonempty. -/
def enterSubmit (s : Session) : Session :=
  if s.guess ≠ "" then submitGuessS s else s

/-- Lines 917-923: clicking Check does nothing while the button is disabled. -/
def clickCheck (s : Session) : Session :=
  if checkDisabled s then s else submitGuessS s

/-- The component state at mount (lines 309-336). -/
def initSession (cards : List Card) : Session :=
  { cards := cards
    currentIndex := 0
    guess := ""
    feedback := none
    showAnswer := false
    correct := 0
    total := 0
    shuffledIndices := []
    difficulty := Difficulty.first
    gameMode := Mode.classic
    startTimeSet := false
    rocketHeight := 50
    rocketCrashed := false
    rocketBoosting := false
    lastGuess := ""
    correctionInput := ""
    correctionComplete := false }

/-- The user- and frame-driven transitions of the practice session.  Guards
record when the corresponding handler is reachable in the rendered UI: the
practice surface only renders while cards exist and the session is not
complete, the guess input and Reveal button only before the answer is
shown, the Next Card button only while not disabled, the skip link only in
Classic mode under incorrect feedback, and onCrash only while the rocket
game is mounted with gravity running. -/
inductive Step : Session → Session → Prop where
  | submit (s : Session) (hc : ¬ isSessionComplete s) (hn : 0 < s.numCards)
      (hsa : s.showAnswer = false) (hg : s.guess ≠ "") :
      Step s (submitGuessS s)
  | revealClick (s : Session) (hc : ¬ isSessionComplete s) (hn : 0 < s.numCards)
      (hsa : s.showAnswer = false) :
      Step s (revealButtonStep s)
  | revealKey (s : Session) (hc : ¬ isSessionComplete s) (hn : 0 < s.numCards)
      (hsa : s.showAnswer = false) :
      Step s (revealKeyStep s)
  | next (s : Session) (hc : ¬ isSessionComplete s) (hn : 0 < s.numCards)
      (hsa : s.showAnswer = true) (hgate : ¬ nextDisabled s) :
      Step s (nextCardS s)
  | skip (s : Session) (hc : ¬ isSessionComplete s) (hn : 0 < s.numCards)
      (hsa : s.showAnswer = true) (hf : s.feedback = some Feedback.incorrect)
      (hm : s.gameMode = Mode.classic) :
      Step s (nextCardS s)
  | autoAdvance (s : Session) (hm : s.gameMode = Mode.rocket)
      (hsa : s.showAnswer = true) :
      Step s (nextCardS s)
  | shuffle (s : Session) (hc : ¬ isSessionComplete s) (hn : 0 < s.numCards)
      (rand : Nat → Nat) (hr : ∀ i, rand i ≤ i) :
      Step s (shuffleCardsS rand s)
  | restart (s : Session) (rand : Nat → Nat) (hr : ∀ i, rand i ≤ i) :
      Step s (restartPracticeS rand s)
  | modeChange (s : Session) (m : Mode) (rand : Nat → Nat) (hr : ∀ i, rand i ≤ i)
      (hc : ¬ isSessionComplete s) :
      Step s (handleGameModeChangeS m rand s)
  | crash (s : Session) (hm : s.gameMode = Mode.rocket) (hnc : s.rocketCrashed = false)
      (hsa : s.showAnswer = false) (hc : ¬ isSessionComplete s) :
      Step s (handleRocketCrashS s)
  | setDifficulty (s : Session) (d : Difficulty) (hc : ¬ isSessionComplete s) :
      Step s { s with difficulty := d }
  | corrChange (s : Session) (v : String) (hsa : s.showAnswer = true)
      (hc : ¬ isSessionComplete s) :
      Step s (handleCorrectionChangeS v s)
  | setGuess (s : Session) (v : String) (hsa : s.showAnswer = false)
      (hc : ¬ isSessionComplete s) :
      Step s { s with guess := v }

/-- Reachable session states: the mounted component state over a nonempty
eligible-card list, closed under transitions. -/
inductive Reach : Session → Prop where
  | init (cards : List Card) (h : cards ≠ []) : Reach (initSession cards)
  | step {s t : Session} : Reach s → Step s t → Reach t

/-- A three-card deck used to instantiate theorems on concrete sessions. -/
def witnessCards : List Card :=
  [⟨"Jane Doe", ["janie"]⟩, ⟨"John Smith", []⟩, ⟨"Amy Chen", ["ames"]⟩]

/-- A freshly mounted rocket-mode session at the starting altitude of 50. -/
def revealDemo : Session :=
  { initSession witnessCards with gameMode := Mode.rocket }

/-- The Jane Doe input in Rocket mode, used to instantiate C10. -/
def rocketJane : GuessInput :=
  { difficulty := Difficulty.first
    gameMode := Mode.rocket
    name := "Jane Doe"
    nicknames := ["janie"]
    guess := "jane"
    correct := 0
    total := 0
    rocketHeight := 50
    rocketCrashed := false
    rocketBoosting := false }

/-- A sample input for the Jane Doe examples of the specification. -/
def janeInput (d : Difficulty) (raw : String) : GuessInput :=
  { difficulty := d
    gameMode := Mode.classic
    name := "Jane Doe"
    nicknames := ["janie"]
    guess := raw
    correct := 0
    total := 0
    rocketHeight := 50
    rocketCrashed := false
    rocketBoosting := false }

/-! ## Permutation lemmas for the Fisher-Yates loop -/

theorem consSet_perm (t : List Nat) (x : Nat) :
    ∀ j : Nat, j < t.length → (t.getD j 0 :: t.set j x).Perm (x :: t) := by
  induction t with
  | nil => intro j hj; simp at hj
  | cons y tt ih =>
    intro j hj
    cases j with
    | zero =>
      simpa using List.Perm.swap x y tt
    | succ k =>
      have hk : k < tt.length := by simpa using hj
      have p1 : List.Perm (tt.getD k 0 :: y :: tt.set k x) (y :: tt.getD k 0 :: tt.set k x) :=
        List.Perm.swap y (tt.getD k 0) (tt.set k x)
      have p2 : List.Perm (y :: tt.getD k 0 :: tt.set k x) (y :: x :: tt) :=
        (ih k hk).cons y
      have p3 : List.Perm (y :: x :: tt) (x :: y :: tt) := List.Perm.swap x y tt
      simpa using p1.trans (p2.trans p3)

theorem swapAt_perm (l : List Nat) :
    ∀ i j : Nat, i < l.length → j < l.length → (swapAt l i j).Perm l := by
  induction l with
  | nil => intro i j hi _; simp at hi
  | cons x t ih =>
    intro i j hi hj
    cases i with
    | zero =>
      cases j with
      | zero => simp [swapAt]
      | succ k =>
        have hk : k < t.length := by simpa using hj
        have : swapAt (x :: t) 0 (k + 1) = t.getD k 0 :: t.set k x := by
          simp [swapAt]
        rw [this]
        exact consSet_perm t x k hk
    | succ m =>
      have hm : m < t.length := by simpa using hi
      cases j with
      | zero =>
        have : swapAt (x :: t) (m + 1) 0 = t.getD m 0 :: t.set m x := by
          simp [swapAt]
        rw [this]
        exact consSet_perm t x m hm
      | succ k =>
        have hk : k < t.length := by simpa using hj
        have : swapAt (x :: t) (m + 1) (k + 1) = x :: swapAt t m k := by
          simp [swapAt]
        rw [this]
        exact List.Perm.cons x (ih m k hm hk)

theorem swapAt_length (l : List Nat) (i j : Nat) :
    (swapAt l i j).length = l.length := by
  simp [swapAt]

theorem fyLoop_perm (rand : Nat → Nat) (hr : ∀ k, rand k ≤ k) :
    ∀ (i : Nat) (l : List Nat), i < l.length → (fyLoop rand i l).Perm l := by
  intro i
  induction i with
  | zero => intro l _; exact List.Perm.refl l
  | succ i ih =>
    intro l h
    have hj : rand (i + 1) < l.length := lt_of_le_of_lt (hr (i + 1)) h
    have hlen : (swapAt l (i + 1) (rand (i + 1))).length = l.length :=
      swapAt_length l _ _
    have hi : i < (swapAt l (i + 1) (rand (i + 1))).length := by
      rw [hlen]; exact Nat.lt_of_succ_lt h
    exact (ih _ hi).trans (swapAt_perm l (i + 1) (rand (i + 1)) h hj)

theorem shuffleOrder_perm (n : Nat) (rand : Nat → Nat) (hr : ∀ k, rand k ≤ k) :
    (shuffleOrder n rand).Perm (List.range n) := by
  cases n with
  | zero => simp [shuffleOrder, fyLoop]
  | succ m =>
    have h : m < (List.range (m + 1)).length := by simp
    simpa [shuffleOrder] using fyLoop_perm rand hr m (List.range (m + 1)) h

/-! ## Facts about checkGuess used by the session invariant -/

theorem practiceCheckGuess_total (i : GuessInput) :
    (practiceCheckGuess i).total = i.total + 1 := by
  simp only [practiceCheckGuess]
  split_ifs <;> simp

theorem practiceCheckGuess_correct_le (i : GuessInput) :
    (practiceCheckGuess i).correct ≤ i.correct + 1 := by
  simp only [practiceCheckGuess]
  split_ifs <;> simp

theorem practiceCheckGuess_crashed (i : GuessInput) :
    (practiceCheckGuess i).rocketCrashed = true →
      i.rocketCrashed = true ∨ i.gameMode = Mode.rocket := by
  simp only [practiceCheckGuess]
  split_ifs <;> intro h <;> simp_all

theorem submitGuessS_cards (s : Session) : (submitGuessS s).cards = s.cards := rfl

theorem submitGuessS_gameMode (s : Session) : (submitGuessS s).gameMode = s.gameMode := rfl

theorem submitGuessS_total (s : Session) : (submitGuessS s).total = s.total + 1 := by
  simp [submitGuessS, practiceCheckGuess_total]

theorem submitGuessS_correct_le (s : Session) :
    (submitGuessS s).correct ≤ s.correct + 1 := by
  simpa [submitGuessS] using practiceCheckGuess_correct_le _

theorem submitGuessS_crashed (s : Session) :
    (submitGuessS s).rocketCrashed = true →
      s.rocketCrashed = true ∨ s.gameMode = Mode.rocket := by
  intro h
  simpa using practiceCheckGuess_crashed _ h

/-- The session invariant: the stats are bounded by the eligible-card
count, the card list is nonempty, and the crashed flag only ever holds in
Rocket mode. -/
def Inv (s : Session) : Prop :=
  s.correct ≤ s.total ∧ s.total ≤ s.numCards ∧ 0 < s.numCards ∧
    (s.rocketCrashed = true → s.gameMode = Mode.rocket)

theorem total_lt_of_not_complete (s : Session) (hc : ¬ isSessionComplete s)
    (hn : 0 < s.numCards) : s.total + 1 ≤ s.numCards := by
  unfold isSessionComplete at hc
  push_neg at hc
  rcases Nat.eq_zero_or_pos s.total with h0 | hpos
  · omega
  · have := hc.1 hpos
    omega

theorem step_preserves_inv {s t : Session} (hs : Step s t) (ih : Inv s) : Inv t := by
  obtain ⟨ih1, ih2, ih3, ih4⟩ := ih
  cases hs with
  | submit hc hn hsa hg =>
    refine ⟨?_, ?_, ?_, ?_⟩
    · calc (submitGuessS s).correct ≤ s.correct + 1 := submitGuessS_correct_le s
        _ ≤ s.total + 1 := Nat.succ_le_succ ih1
        _ = (submitGuessS s).total := (submitGuessS_total s).symm
    · rw [submitGuessS_total]
      exact total_lt_of_not_complete s hc ih3
    · exact ih3
    · intro hcr
      rw [submitGuessS_gameMode]
      rcases submitGuessS_crashed s hcr with h1 | h1
      · exact ih4 h1
      · exact h1
  | revealClick hc hn hsa =>
    refine ⟨Nat.le_succ_of_le ih1, total_lt_of_not_complete s hc ih3, ih3, ih4⟩
  | revealKey hc hn hsa =>
    refine ⟨Nat.le_succ_of_le ih1, total_lt_of_not_complete s hc ih3, ih3, ih4⟩
  | next hc hn hsa hgate =>
    exact ⟨ih1, ih2, ih3, ih4⟩
  | skip hc hn hsa hf hm =>
    exact ⟨ih1, ih2, ih3, ih4⟩
  | autoAdvance hm hsa =>
    exact ⟨ih1, ih2, ih3, ih4⟩
  | shuffle hc hn rand hrand =>
    exact ⟨ih1, ih2, ih3, ih4⟩
  | restart rand hrand =>
    refine ⟨Nat.le_refl 0, Nat.zero_le _, ih3, ?_⟩
    intro hcr
    simp [restartPracticeS, shuffleCardsS, resetCardState] at hcr
  | modeChange m rand hrand hc =>
    unfold handleGameModeChangeS
    split
    · refine ⟨Nat.le_refl 0, Nat.zero_le _, ih3, ?_⟩
      intro hcr
      simp [restartPracticeS, shuffleCardsS, resetCardState] at hcr
    · exact ⟨ih1, ih2, ih3, ih4⟩
  | crash hm hnc hsa hc =>
    exact ⟨ih1, ih2, ih3, fun _ => hm⟩
  | setDifficulty d hc =>
    exact ⟨ih1, ih2, ih3, ih4⟩
  | corrChange v hsa hc =>
    exact ⟨ih1, ih2, ih3, ih4⟩
  | setGuess v hsa hc =>
    exact ⟨ih1, ih2, ih3, ih4⟩

theorem reach_invariant (s : Session) (h : Reach s) : Inv s := by
  induction h with
  | init cards hc =>
    refine ⟨Nat.le_refl 0, Nat.zero_le _, ?_, ?_⟩
    · simpa [initSession, Session.numCards] using List.length_pos.mpr hc
    · intro hcr; simp [initSession] at hcr
  | step hr hs ih =>
    exact step_preserves_inv hs ih

/-! ## Claim theorems -/

/-- C2: at every reachable session state, stats.correct is at most
stats.total, which is at most the eligible-card count; session completion
is equivalent to the derived condition (total has reached the card count,
or Rocket mode has crashed); and completion without a crash forces
stats.total to equal the card count exactly. -/
theorem claim_c2_session_stats_invariant (s : Session) (h : Reach s) :
    (s.correct ≤ s.total ∧ s.total ≤ s.numCards) ∧
    (isSessionComplete s ∧ s.rocketCrashed = false → s.total = s.numCards) ∧
    (isSessionComplete s ↔
      (s.numCards ≤ s.total ∨ (s.gameMode = Mode.rocket ∧ s.rocketCrashed = true))) := by
  obtain ⟨i1, i2, i3, i4⟩ := reach_invariant s h
  refine ⟨⟨i1, i2⟩, ?_, ?_, ?_⟩
  · rintro ⟨hcomp, hnc⟩
    rcases hcomp with ⟨hpos, hle⟩ | hcr
    · omega
    · rw [hnc] at hcr; cases hcr
  · intro hcomp
    rcases hcomp with ⟨hpos, hle⟩ | hcr
    · exact Or.inl hle
    · exact Or.inr ⟨i4 hcr, hcr⟩
  · intro hor
    rcases hor with hle | ⟨hm, hcr⟩
    · exact Or.inl ⟨by omega, hle⟩
    · exact Or.inr hcr

/-- Witness for C2 at the freshly mounted three-card session. -/
theorem claim_c2_witness :
    (initSession witnessCards).correct ≤ (initSession witnessCards).total ∧
      (initSession witnessCards).total ≤ (initSession witnessCards).numCards :=
  (claim_c2_session_stats_invariant _ (Reach.init witnessCards (by decide))).1

/-- C8: for every card count and every sequence of draws with the i-th
draw in [0, i], the Fisher-Yates loop of shuffleCards produces a
permutation of the index range, and the shuffle operation resets the
cursor to 0 and clears feedback and the guess field. -/
theorem claim_c8_shuffle_permutation (s : Session) (rand : Nat → Nat)
    (hr : ∀ i, rand i ≤ i) :
    ((shuffleCardsS rand s).shuffledIndices).Perm (List.range s.numCards) ∧
    (shuffleCardsS rand s).currentIndex = 0 ∧
    (shuffleCardsS rand s).feedback = none ∧
    (shuffleCardsS rand s).guess = "" ∧
    (shuffleCardsS rand s).shuffledIndices = shuffleOrder s.numCards rand :=
  ⟨shuffleOrder_perm _ rand hr, rfl, rfl, rfl, rfl⟩

/-- Witness for C8: the all-zero draw sequence on the three-card session. -/
theorem claim_c8_witness :
    (∀ i, (fun _ => 0 : Nat → Nat) i ≤ i) ∧
    ((shuffleCardsS (fun _ => 0) (initSession witnessCards)).shuffledIndices).Perm
      (List.range (initSession witnessCards).numCards) :=
  ⟨fun i => Nat.zero_le i,
   (claim_c8_shuffle_permutation (initSession witnessCards) (fun _ => 0)
      (fun i => Nat.zero_le i)).1⟩

/-- C9: an empty guess is rejected at the boundary: the Check button is
disabled and neither the button nor the Enter key reaches checkGuess, so
the session state is unchanged. -/
theorem claim_c9_empty_guess_noop (s : Session) (h : s.guess = "") :
    enterSubmit s = s ∧ clickCheck s = s ∧ checkDisabled s = true := by
  refine ⟨?_, ?_, ?_⟩ <;> simp [enterSubmit, clickCheck, checkDisabled, h]

/-- Witness for C9 at the freshly mounted session, whose guess is empty. -/
theorem claim_c9_witness :
    (initSession witnessCards).guess = "" ∧
      enterSubmit (initSession witnessCards) = initSession witnessCards :=
  ⟨rfl, (claim_c9_empty_guess_noop (initSession witnessCards) rfl).1⟩

/-- C5 counterexample: on a rocket-mode session at altitude 50, the Reveal
handler leaves the altitude at 50 instead of applying the incorrect-guess
penalty max 0 (50 - 15) = 35, so reveal is not equivalent to a
guaranteed-incorrect guess on the Rocket penalty path. -/
theorem claim_c5_counterexample :
    revealDemo.gameMode = Mode.rocket ∧
    revealDemo.rocketHeight = 50 ∧
    (revealButtonStep revealDemo).rocketHeight = 50 ∧
    max 0 (revealDemo.rocketHeight - 15) = 35 ∧
    (revealButtonStep revealDemo).rocketHeight ≠ max 0 (revealDemo.rocketHeight - 15) := by
  have h35 : max (0 : ℚ) (revealDemo.rocketHeight - 15) = 35 := by
    norm_num [max_def, revealDemo, initSession]
  refine ⟨rfl, rfl, rfl, h35, ?_⟩
  rw [h35]
  norm_num [revealButtonStep, revealDemo, initSession]

/-- C5 amended: the Reveal button and the r shortcut run the same handler,
which increments stats.total, sets feedback to INCORRECT and shows the
answer, but applies no Rocket-mode altitude penalty: rocketHeight and
rocketCrashed are unchanged, so reveal never causes a crash. -/
theorem claim_c5_reveal_effects (s : Session) :
    revealButtonStep s = revealKeyStep s ∧
    (revealButtonStep s).total = s.total + 1 ∧
    (revealButtonStep s).correct = s.correct ∧
    (revealButtonStep s).feedback = some Feedback.incorrect ∧
    (revealButtonStep s).showAnswer = true ∧
    (revealButtonStep s).rocketHeight = s.rocketHeight ∧
    (revealButtonStep s).rocketCrashed = s.rocketCrashed :=
  ⟨rfl, rfl, rfl, rfl, rfl, rfl, rfl⟩

/-- C7: the correction gate passes exactly when the lowercased trimmed
input equals the lowercased target name; it behaves as required on the
Jane examples; it is recomputed on every keystroke; the Next Card button
is disabled exactly in Classic mode with INCORRECT feedback and an
unsatisfied gate; and the skip action advances regardless of the gate. -/
theorem claim_c7_correction_gate :
    (∀ (d : Difficulty) (c : Card) (v : String),
       checkCorrection d c v = true ↔ jsTrim (jsLower v) = jsLower (getTargetName d c)) ∧
    getTargetName Difficulty.first ⟨"Jane Doe", ["janie"]⟩ = "Jane" ∧
    checkCorrection Difficulty.first ⟨"Jane Doe", ["janie"]⟩ "jan" = false ∧
    checkCorrection Difficulty.first ⟨"Jane Doe", ["janie"]⟩ "Jane" = true ∧
    checkCorrection Difficulty.first ⟨"Jane Doe", ["janie"]⟩ "jane " = true ∧
    (∀ (v : String) (s : Session),
       (handleCorrectionChangeS v s).correctionInput = v ∧
       (handleCorrectionChangeS v s).correctionComplete =
         checkCorrection s.difficulty (currentCoworker s) v) ∧
    (∀ s : Session, s.gameMode = Mode.classic → s.feedback = some Feedback.incorrect →
       s.correctionComplete = false → nextDisabled s) ∧
    (∀ s : Session, s.correctionComplete = true → ¬ nextDisabled s) ∧
    (∀ s : Session,
       (s.feedback = some Feedback.correct ∨ s.feedback = some Feedback.nickname) →
       ¬ nextDisabled s) ∧
    (∀ s : Session, ¬ isSessionComplete s → 0 < s.numCards → s.showAnswer = true →
       s.feedback = some Feedback.incorrect → s.gameMode = Mode.classic →
       Step s (nextCardS s)) := by
  refine ⟨?_, by decide, by decide, by decide, by decide, ?_, ?_, ?_, ?_, ?_⟩
  · intro d c v
    simp [checkCorrection]
  · intro v s
    exact ⟨rfl, rfl⟩
  · intro s h1 h2 h3
    exact ⟨h2, h3, h1⟩
  · rintro s h ⟨-, hcc, -⟩
    rw [h] at hcc
    cases hcc
  · rintro s (h | h) ⟨hf, -, -⟩ <;> rw [h] at hf <;> cases hf
  · intro s hc hn hsa hf hm
    exact Step.skip s hc hn hsa hf hm

/-- Witness for C7: the gate characterization at the Jane card and the
blocked Next Card button on a concrete incorrect-feedback classic state. -/
theorem claim_c7_witness :
    (checkCorrection Difficulty.first ⟨"Jane Doe", ["janie"]⟩ "Jane" = true ↔
      jsTrim (jsLower "Jane") = jsLower (getTargetName Difficulty.first ⟨"Jane Doe", ["janie"]⟩)) ∧
    nextDisabled { initSession witnessCards with feedback := some Feedback.incorrect } :=
  ⟨claim_c7_correction_gate.1 Difficulty.first ⟨"Jane Doe", ["janie"]⟩ "Jane",
   (claim_c7_correction_gate.2.2.2.2.2.2.1)
     { initSession witnessCards with feedback := some Feedback.incorrect } rfl rfl rfl⟩

/-- C1: for every card with nonempty full name, every difficulty and every
raw input, the checkGuess classification agrees with the specification
(normalize the input, match the target selected by difficulty, then try
nicknames case-insensitively at FIRST_NAME difficulty only), and
it behaves as specified on the Jane Doe examples. -/
theorem claim_c1_guess_classification :
    (∀ i : GuessInput, i.name ≠ "" →
       (practiceCheckGuess i).feedback = specClassify i.difficulty i.name i.nicknames i.guess) ∧
    (practiceCheckGuess (janeInput Difficulty.first "jane")).feedback = Feedback.correct ∧
    (practiceCheckGuess (janeInput Difficulty.first "janie")).feedback = Feedback.nickname ∧
    (practiceCheckGuess (janeInput Difficulty.first "doe")).feedback = Feedback.incorrect ∧
    (practiceCheckGuess (janeInput Difficulty.full "janie")).feedback = Feedback.incorrect := by
  refine ⟨?_, by decide, by decide, by decide, by decide⟩
  intro i hname
  simp only [practiceCheckGuess, specClassify]
  split_ifs <;> simp_all

/-- Witness for C1 at the Jane Doe card with input jane. -/
theorem claim_c1_witness :
    (janeInput Difficulty.first "jane").name ≠ "" ∧
    (practiceCheckGuess (janeInput Difficulty.first "jane")).feedback =
      specClassify Difficulty.first "Jane Doe" ["janie"] "jane" :=
  ⟨by decide, claim_c1_guess_classification.1 (janeInput Difficulty.first "jane") (by decide)⟩

/-- C10: the checkGuess copy of the owner practice view and the copy of
the shared-deck guest view compute identical results on every input, and
in Rocket mode a correct or nickname classification boosts the altitude by
20 clamped at 100 and schedules the auto-advance, while an incorrect
classification lowers it by 15 clamped at 0 and crashes exactly when 0 is
reached. -/
theorem claim_c10_checkGuess_copies_agree :
    (∀ i : GuessInput, practiceCheckGuess i = sharedCheckGuess i) ∧
    (∀ i : GuessInput, i.gameMode = Mode.rocket →
       ((practiceCheckGuess i).feedback ≠ Feedback.incorrect →
          (practiceCheckGuess i).rocketHeight = min 100 (i.rocketHeight + 20) ∧
          (practiceCheckGuess i).autoAdvance = true ∧
          (practiceCheckGuess i).rocketBoosting = true) ∧
       ((practiceCheckGuess i).feedback = Feedback.incorrect →
          (practiceCheckGuess i).rocketHeight = max 0 (i.rocketHeight - 15) ∧
          ((practiceCheckGuess i).rocketCrashed = true ↔
            (max 0 (i.rocketHeight - 15) ≤ 0 ∨ i.rocketCrashed = true)))) := by
  refine ⟨fun i => rfl, ?_⟩
  intro i hm
  constructor
  · simp only [practiceCheckGuess]
    split_ifs <;> intro hf <;> simp_all
  · simp only [practiceCheckGuess]
    split_ifs <;> intro hf <;> simp_all

/-- Witness for C10: the rocket-mode Jane input, a correct guess. -/
theorem claim_c10_witness :
    rocketJane.gameMode = Mode.rocket ∧
    (practiceCheckGuess rocketJane).feedback ≠ Feedback.incorrect ∧
    (practiceCheckGuess rocketJane).rocketHeight = min 100 (rocketJane.rocketHeight + 20) :=
  ⟨rfl, by decide,
   (((claim_c10_checkGuess_copies_agree.2 rocketJane rfl).1) (by decide)).1⟩

/-- Positivity of the clamped frame time. -/
theorem clampDt_pos (dtRaw : ℚ) (h : 0 < dtRaw) : 0 < clampDt dtRaw := by
  unfold clampDt
  split_ifs <;> norm_num
  exact h

/-- C3: a tick applies the altitude boost exactly on the rising edge of the
boosting flag: boostFired equals the edge condition, the previous flag is
refreshed every tick, a rising edge adds BASE_BOOST times the
altitude-interpolated multiplier to the post-gravity altitude with the
result clamped at 100, a sustained flag leaves the altitude at the
post-gravity value, two consecutive boosting ticks never fire twice, and
the multiplier interpolates linearly between its value at altitude 0 and
its value at altitude 100. -/
theorem claim_c3_boost_edge_trigger :
    (∀ (b g : Bool) (dtRaw : ℚ) (s : RGState),
       (tick b g dtRaw s).2.boostFired = (b && !s.lastBoosting) ∧
       (tick b g dtRaw s).1.lastBoosting = b) ∧
    (∀ (g : Bool) (dtRaw : ℚ) (s : RGState), s.lastBoosting = false →
       (tick true g dtRaw s).1.actual =
         min 100 (postGravityAlt g (clampDt dtRaw) s +
           boostAmount (postGravityAlt g (clampDt dtRaw) s)) ∧
       (tick true g dtRaw s).1.actual ≤ 100) ∧
    (∀ (g : Bool) (dtRaw : ℚ) (s : RGState), s.lastBoosting = true →
       (tick true g dtRaw s).1.actual = postGravityAlt g (clampDt dtRaw) s) ∧
    (∀ (g1 g2 : Bool) (d1 d2 : ℚ) (s : RGState),
       (tick true g2 d2 (tick true g1 d1 s).1).2.boostFired = false) ∧
    (∀ a : ℚ, boostMultiplier a =
       (1 - a / 100) * BOOST_MULTIPLIER_MAX + a / 100 * BOOST_MULTIPLIER_MIN) ∧
    boostMultiplier 0 = BOOST_MULTIPLIER_MAX ∧
    boostMultiplier 100 = BOOST_MULTIPLIER_MIN := by
  refine ⟨?_, ?_, ?_, ?_, ?_, ?_, ?_⟩
  · intro b g dtRaw s
    refine ⟨?_, rfl⟩
    cases b <;> cases h : s.lastBoosting <;> simp [tick, h]
  · intro g dtRaw s h
    constructor
    · simp [tick, postGravityAlt, h]
    · have : (tick true g dtRaw s).1.actual =
          min 100 (postGravityAlt g (clampDt dtRaw) s +
            boostAmount (postGravityAlt g (clampDt dtRaw) s)) := by
        simp [tick, postGravityAlt, h]
      rw [this]
      exact min_le_left _ _
  · intro g dtRaw s h
    simp [tick, postGravityAlt, h]
  · intro g1 g2 d1 d2 s
    simp [tick]
  · intro a
    unfold boostMultiplier
    ring
  · norm_num [boostMultiplier]
  · norm_num [boostMultiplier, BOOST_MULTIPLIER_MAX, BOOST_MULTIPLIER_MIN]

/-- Witness for C3: a rising edge at altitude 50 with a 10ms frame. -/
theorem claim_c3_witness :
    (⟨50, 50, false, false⟩ : RGState).lastBoosting = false ∧
    (tick true false (1 / 100) ⟨50, 50, false, false⟩).1.actual =
      min 100 (postGravityAlt false (clampDt (1 / 100)) ⟨50, 50, false, false⟩ +
        boostAmount (postGravityAlt false (clampDt (1 / 100)) ⟨50, 50, false, false⟩)) :=
  ⟨rfl, (claim_c3_boost_edge_trigger.2.1 false (1 / 100) ⟨50, 50, false, false⟩ rfl).1⟩

/-- C4: with gravity active, no boost and a positive frame time, the
authoritative altitude strictly decreases each tick while positive; the
crash notification fires exactly when the decayed altitude reaches 0, at
which point the altitude is clamped to 0 and the crashed flag becomes
true; and once crashed, no tick ever fires the notification again or
clears the flag. -/
theorem claim_c4_gravity_decay_crash_once (s : RGState) (dtRaw : ℚ)
    (hdt : 0 < dtRaw) (hnc : s.crashed = false) :
    (0 < s.actual → (tick false true dtRaw s).1.actual < s.actual) ∧
    ((tick false true dtRaw s).2.crashFired = true ↔
      s.actual - GRAVITY_RATE * clampDt dtRaw ≤ 0) ∧
    ((tick false true dtRaw s).2.crashFired = true →
      (tick false true dtRaw s).1.actual = 0 ∧ (tick false true dtRaw s).1.crashed = true) ∧
    (∀ (b2 g2 : Bool) (d2 : ℚ) (t : RGState), t.crashed = true →
      (tick b2 g2 d2 t).2.crashFired = false ∧ (tick b2 g2 d2 t).1.crashed = true) ∧
    ((tick false true dtRaw s).2.crashFired = true →
      ∀ (b2 g2 : Bool) (d2 : ℚ),
        (tick b2 g2 d2 (tick false true dtRaw s).1).2.crashFired = false) := by
  have hpos : 0 < clampDt dtRaw := clampDt_pos dtRaw hdt
  have hcrash : ∀ (b2 g2 : Bool) (d2 : ℚ) (t : RGState), t.crashed = true →
      (tick b2 g2 d2 t).2.crashFired = false ∧ (tick b2 g2 d2 t).1.crashed = true := by
    intro b2 g2 d2 t ht
    constructor <;> simp [tick, ht]
  refine ⟨?_, ?_, ?_, hcrash, ?_⟩
  · intro ha
    by_cases hz : s.actual - GRAVITY_RATE * clampDt dtRaw ≤ 0
    · have : (tick false true dtRaw s).1.actual = 0 := by
        simp [tick, gravityRawAlt, hnc, hz]
      rw [this]; exact ha
    · have : (tick false true dtRaw s).1.actual = s.actual - GRAVITY_RATE * clampDt dtRaw := by
        simp [tick, gravityRawAlt, hnc, hz]
      rw [this]
      have : 0 < GRAVITY_RATE * clampDt dtRaw := by
        have : (0 : ℚ) < GRAVITY_RATE := by norm_num [GRAVITY_RATE]
        positivity
      linarith
  · simp [tick, gravityRawAlt, hnc]
  · intro hf
    rw [(by simp [tick, gravityRawAlt, hnc] :
      (tick false true dtRaw s).2.crashFired = true ↔
        s.actual - GRAVITY_RATE * clampDt dtRaw ≤ 0)] at hf
    constructor <;> simp [tick, gravityRawAlt, hnc, hf]
  · intro hf b2 g2 d2
    have h1 : (tick false true dtRaw s).1.crashed = true := by
      rw [(by simp [tick, gravityRawAlt, hnc] :
        (tick false true dtRaw s).2.crashFired = true ↔
          s.actual - GRAVITY_RATE * clampDt dtRaw ≤ 0)] at hf
      simp [tick, gravityRawAlt, hnc, hf]
    exact (hcrash b2 g2 d2 _ h1).1

/-- Witness for C4: a 10ms tick at altitude 50 strictly decreases it. -/
theorem claim_c4_witness :
    (0 : ℚ) < 1 / 100 ∧ (⟨50, 50, false, false⟩ : RGState).crashed = false ∧
    (tick false true (1 / 100) ⟨50, 50, false, false⟩).1.actual < 50 :=
  ⟨by norm_num, rfl,
   (claim_c4_gravity_decay_crash_once ⟨50, 50, false, false⟩ (1 / 100)
      (by norm_num) rfl).1 (by norm_num)⟩

/-- C6: the visual-smoothing step at a 10ms frame moves the visual value
by 4 when rising across a gap of 50 but by 6 when falling across the same
gap, because LERP_SPEED_UP = 8 is smaller than LERP_SPEED_DOWN = 12 — the
falling branch is the faster one, contradicting the documented intent that
rising is faster; the epsilon snap to the actual altitude works as
described. -/
theorem claim_c6_lerp_constants_swapped :
    LERP_SPEED_UP < LERP_SPEED_DOWN ∧
    (tick false false (1 / 100) ⟨100, 50, false, false⟩).1.visual = 54 ∧
    (tick false false (1 / 100) ⟨0, 50, false, false⟩).1.visual = 44 ∧
    (tick false false (1 / 100) ⟨50, 50 + 1 / 20, false, false⟩).1.visual = 50 ∧
    (54 : ℚ) - 50 < 50 - 44 := by
  refine ⟨by norm_num [LERP_SPEED_UP, LERP_SPEED_DOWN], ?_, ?_, ?_, by norm_num⟩ <;>
    · simp only [tick, gravityRawAlt, clampDt]
      norm_num [LERP_SPEED_UP, LERP_SPEED_DOWN, abs]

end FaceCards
